import Mathlib

/-!
Verification of the serial test-harness protocol engine (coa202ser.py).

The source is a single Python script that
  - parses a port and an optional integer timeout (argparse default = 1),
  - opens the serial transport with that timeout,
  - performs a sync handshake: read single bytes until the sentinel byte Q,
    then write one acknowledgement byte X, then read one identity line,
  - iterates a fixed list of messages, writing each message followed by a
    newline, then reading lines until one classifies as terminal.

Line classification in the source (line is the str() of the bytes read, so
positions 0 and 1 are a two-character artifact the classifier skips):
  if   line[2:8].upper() == "DEBUG:"  -> print the line, keep reading
  elif line[2:8].upper() == "ERROR:"  -> print the line, stop reading
  elif line[2:7].upper() == "DONE!"   -> stop reading (no print)
  else                                -> keep reading (no print)

The embedding below models the transport as the list of lines (already
str-converted) that successive readline calls return, plus the list of bytes
that successive read(1) calls return during the handshake.  Exhausting either
list models the device going silent: readline then returns an empty string on
timeout, and a loop that would retry forever on such reads is modelled as
returning none (divergence).
-/

/-- Response categories produced by the classifier in the session loop. -/
inductive ResponseClass
  | Debug
  | Error
  | Done
  | Unrecognized
deriving DecidableEq

/-- Python slice s[a:b] for 0 ≤ a ≤ b on a list of characters:
drop the first a characters, then take b - a of what remains.  Like the
Python slice, it clamps silently when the list is short. -/
def pySlice (s : List Char) (a b : Nat) : List Char :=
  (s.drop a).take (b - a)

/-- Python str.upper on the ASCII tag region: uppercase every character. -/
def supper (s : List Char) : List Char :=
  s.map Char.toUpper

/-- The response classifier: the if/elif chain of the source, on the decoded
line.  line[2:8] is pySlice 2 8, line[2:7] is pySlice 2 7. -/
def classify (line : String) : ResponseClass :=
  if supper (pySlice line.data 2 8) = "DEBUG:".data then .Debug
  else if supper (pySlice line.data 2 8) = "ERROR:".data then .Error
  else if supper (pySlice line.data 2 7) = "DONE!".data then .Done
  else .Unrecognized

/-- A classification is terminal when it ends the wait for the current
message: the source sets still_reading = False exactly in the ERROR: and
DONE! branches. -/
def isTerminal : ResponseClass → Bool
  | .Error => true
  | .Done => true
  | .Debug => false
  | .Unrecognized => false

/-- Transcript lines the waiting loop prints for one line read: the source
prints "Read: " with the line in the DEBUG: and ERROR: branches and prints
nothing in the DONE! branch or the fall-through case. -/
def printedFor (line : String) : List String :=
  match classify line with
  | .Debug => ["Read: " ++ line]
  | .Error => ["Read: " ++ line]
  | .Done => []
  | .Unrecognized => []

/-- The per-message waiting loop (while still_reading): read a line, classify
it, stop after the first terminal line.  Returns the consumed lines (the
terminal line last) and the remaining stream.  If the stream is exhausted
before a terminal line, the source would retry empty timeout reads forever;
that divergence is modelled as none. -/
def awaitTerminal : List String → Option (List String × List String)
  | [] => none
  | l :: rest =>
    if isTerminal (classify l) then some ([l], rest)
    else
      match awaitTerminal rest with
      | none => none
      | some (c, r) => some (l :: c, r)

/-- A transport event observed during the session loop: a write of a payload
or a readline returning a line. -/
inductive Event
  | write : String → Event
  | read : String → Event
deriving DecidableEq

/-- The payload of a write event, none for a read. -/
def writeOf : Event → Option String
  | .write p => some p
  | .read _ => none

/-- The session loop (for msg in msgs): for each message in order, write the
message followed by a single newline, then run the waiting loop to a terminal
classification, then advance.  Produces the ordered trace of transport events
and the unconsumed remainder of the line stream; none when some waiting loop
diverges. -/
def runSession : List String → List String → Option (List Event × List String)
  | [], stream => some ([], stream)
  | m :: ms, stream =>
    match awaitTerminal stream with
    | none => none
    | some (c, r) =>
      match runSession ms r with
      | none => none
      | some (tr, r2) => some (Event.write (m ++ "\n") :: c.map Event.read ++ tr, r2)

/-- A handshake transport event: a single-byte read, a single-byte write, or
a readline. -/
inductive HSEvent
  | readByte : Char → HSEvent
  | writeByte : Char → HSEvent
  | readLine : String → HSEvent
deriving DecidableEq

/-- The sync scan (while going): read one byte at a time until the sentinel
byte Q is observed.  Returns the consumed bytes (Q last) and the rest; none
when the byte stream is exhausted first (the source would retry forever). -/
def scanSync : List Char → Option (List Char × List Char)
  | [] => none
  | c :: rest =>
    if c = 'Q' then some ([c], rest)
    else
      match scanSync rest with
      | none => none
      | some (con, r) => some (c :: con, r)

/-- One readline against the modelled line stream: the next line when one is
pending, the empty string (a timeout read) when the stream is exhausted. -/
def readLineT : List String → String × List String
  | [] => ("", [])
  | l :: r => (l, r)

/-- The handshake: scan bytes for the sentinel Q, write one acknowledgement
byte X, read one identity line and return it.  Produces the ordered trace of
handshake transport events, the unread bytes, the returned line, and the
unread lines. -/
def handshake (bytes : List Char) (lines : List String) :
    Option (List HSEvent × List Char × String × List String) :=
  match scanSync bytes with
  | none => none
  | some (con, restBytes) =>
    let (l, restLines) := readLineT lines
    some (con.map HSEvent.readByte ++ [HSEvent.writeByte 'X', HSEvent.readLine l],
          restBytes, l, restLines)

/-- The argparse default for the optional timeout argument in the source. -/
def timeoutDefault : Nat := 1

/-- The timeout the transport is opened with: the caller-supplied value when
present, the argparse default when the argument is omitted. -/
def serialOpenTimeout : Option Nat → Nat
  | some t => t
  | none => timeoutDefault

/-- The fixed message list of the source script. -/
def msgs : List String :=
  ["A-GR04XFB-C-GranbySt.", "A-GF57XWD-B-BeehiveLane", "A-BD51SMR-V-BrownsLane",
   "S-GR04XFB-PD", "T-GR04XFB-B", "L-GF57XWD-Southfield", "S-GF57XWD-1",
   "L-CU57ABC-BeehiveLane", "L-GR04XFB-BrownsLane", "S-BD51SMR-PD",
   "L-BD51SMR-BrownsLane", "A-CU57ABC-C-BedfordSquare", "A-CU57ABC-BedfordSq.",
   "A-CU57ABC-C-BedfordSquare", "A-CU57ABC-C-", "A-CU57ABC-M-BedfordSq.",
   "A-GR04XFB-B-BrownsLane", "Z-GR04XFB-BrownsLane", "ACU57ABC-V-BrownsLane",
   "A-GF23WSN- L- BrownsLane"]

/- Helper lemmas shared by the claim theorems. -/

/-- The five-character window is the prefix of the six-character window. -/
lemma supper_slice_2_7_eq_take (l : List Char) :
    supper (pySlice l 2 7) = (supper (pySlice l 2 8)).take 5 := by
  simp [supper, pySlice, List.take_take, List.map_take]

/-- Specification of the waiting loop: the consumed lines are an initial
segment of the stream ending at the first terminal line. -/
lemma awaitTerminal_spec (stream c r : List String)
    (h : awaitTerminal stream = some (c, r)) :
    stream = c ++ r ∧
      ∃ pre last, c = pre ++ [last] ∧ isTerminal (classify last) = true ∧
        ∀ l ∈ pre, isTerminal (classify l) = false := by
  induction stream generalizing c r with
  | nil => simp [awaitTerminal] at h
  | cons l rest ih =>
    unfold awaitTerminal at h
    by_cases ht : isTerminal (classify l) = true
    · rw [if_pos ht] at h
      simp only [Option.some.injEq, Prod.mk.injEq] at h
      obtain ⟨hc, hr⟩ := h
      subst hc; subst hr
      exact ⟨rfl, [], l, rfl, ht, by simp⟩
    · rw [if_neg ht] at h
      cases hrec : awaitTerminal rest with
      | none => rw [hrec] at h; simp at h
      | some p =>
        obtain ⟨c1, r1⟩ := p
        rw [hrec] at h
        simp only [Option.some.injEq, Prod.mk.injEq] at h
        obtain ⟨hc, hr⟩ := h
        obtain ⟨hsplit, pre, last, hcpre, hterm, hpre⟩ := ih c1 r1 hrec
        subst hc hr
        refine ⟨by simp [hsplit], l :: pre, last, by simp [hcpre], hterm, ?_⟩
        intro x hx
        rcases List.mem_cons.mp hx with hx | hx
        · subst hx; simpa using ht
        · exact hpre x hx

/-- Reads contribute no write payloads to a trace. -/
lemma filterMap_writeOf_reads (c : List String) :
    (c.map Event.read).filterMap writeOf = [] := by
  induction c with
  | nil => rfl
  | cons l rest ih => simp [writeOf, ih]

/-- Claim C1: the classifier is case-insensitive on the tag region and
classifies by fixed-position windows: if the characters at positions 2 to 7
(slice 2:8), uppercased, equal DEBUG: it returns Debug; else if ERROR: in any
case occupies that window it returns Error; else if DONE! in any case
occupies slice 2:7 it returns Done; otherwise Unrecognized. -/
theorem classify_case_insensitive_windows (l : String) :
    (supper (pySlice l.data 2 8) = "DEBUG:".data → classify l = .Debug) ∧
    (supper (pySlice l.data 2 8) = "ERROR:".data → classify l = .Error) ∧
    (supper (pySlice l.data 2 7) = "DONE!".data → classify l = .Done) ∧
    (supper (pySlice l.data 2 8) ≠ "DEBUG:".data →
      supper (pySlice l.data 2 8) ≠ "ERROR:".data →
      supper (pySlice l.data 2 7) ≠ "DONE!".data →
      classify l = .Unrecognized) := by
  refine ⟨?_, ?_, ?_, ?_⟩
  · intro h
    unfold classify
    rw [if_pos h]
  · intro h
    have hne : supper (pySlice l.data 2 8) ≠ "DEBUG:".data := by
      rw [h]; decide
    unfold classify
    rw [if_neg hne, if_pos h]
  · intro h
    have htake : (supper (pySlice l.data 2 8)).take 5 = "DONE!".data := by
      rw [← supper_slice_2_7_eq_take, h]
    have hD : supper (pySlice l.data 2 8) ≠ "DEBUG:".data := by
      intro hc
      rw [hc] at htake
      exact absurd htake (by decide)
    have hE : supper (pySlice l.data 2 8) ≠ "ERROR:".data := by
      intro hc
      rw [hc] at htake
      exact absurd htake (by decide)
    unfold classify
    rw [if_neg hD, if_neg hE, if_pos h]
  · intro h1 h2 h3
    unfold classify
    rw [if_neg h1, if_neg h2, if_neg h3]

/-- Witness for C1 at concrete lines of each shape. -/
theorem classify_case_insensitive_windows_witness :
    classify "xxDeBuG: m" = .Debug ∧ classify "xxerror: m" = .Error ∧
    classify "xxdOnE!" = .Done ∧ classify "xxJUNK?" = .Unrecognized :=
  ⟨(classify_case_insensitive_windows "xxDeBuG: m").1 (by decide),
   (classify_case_insensitive_windows "xxerror: m").2.1 (by decide),
   (classify_case_insensitive_windows "xxdOnE!").2.2.1 (by decide),
   (classify_case_insensitive_windows "xxJUNK?").2.2.2
     (by decide) (by decide) (by decide)⟩

/-- Claim C5: a terminal classification halts the per-message waiting loop
exactly at the terminal line: on the stream xxDEBUG: foo, xxDEBUG: bar,
xxDONE! the loop performs exactly 3 line reads and then advances, leaving the
rest of the stream untouched; on xxERROR: bad it performs exactly 1 read. -/
theorem terminal_halts_waiting (m : String) (rest : List String) :
    awaitTerminal ("xxDEBUG: foo" :: "xxDEBUG: bar" :: "xxDONE!" :: rest) =
      some (["xxDEBUG: foo", "xxDEBUG: bar", "xxDONE!"], rest) ∧
    awaitTerminal ("xxERROR: bad" :: rest) = some (["xxERROR: bad"], rest) ∧
    runSession [m] ("xxDEBUG: foo" :: "xxDEBUG: bar" :: "xxDONE!" :: rest) =
      some ([Event.write (m ++ "\n"), Event.read "xxDEBUG: foo",
             Event.read "xxDEBUG: bar", Event.read "xxDONE!"], rest) ∧
    runSession [m] ("xxERROR: bad" :: rest) =
      some ([Event.write (m ++ "\n"), Event.read "xxERROR: bad"], rest) :=
  ⟨rfl, rfl, rfl, rfl⟩

/-- Claim C6: unrecognized lines and empty timeout lines never terminate a
message and raise no error: on the stream xxJUNK, empty, xxDONE! the waiting
loop performs exactly 3 reads before advancing, the junk and empty lines each
classifying as Unrecognized. -/
theorem unrecognized_lines_do_not_terminate (rest : List String) :
    classify "xxJUNK" = .Unrecognized ∧ classify "" = .Unrecognized ∧
    awaitTerminal ("xxJUNK" :: "" :: "xxDONE!" :: rest) =
      some (["xxJUNK", "", "xxDONE!"], rest) :=
  ⟨by decide, by decide, rfl⟩

/-- Claim C8: when the caller omits the optional timeout argument, the
transport is opened with a read timeout of 1 second (the argparse default in
the source is 1). -/
theorem default_timeout_one_second :
    serialOpenTimeout none = 1 ∧ timeoutDefault = 1 :=
  ⟨rfl, rfl⟩

/-- Claim C9: the classifier is total on short lines: a line of fewer than 7
characters yields slices too short to match any tag and classifies as
Unrecognized, with no fault. -/
theorem classify_total_on_short_lines (l : String) (h : l.length < 7) :
    classify l = .Unrecognized := by
  have hd : l.data.length < 7 := h
  have h1 : supper (pySlice l.data 2 8) ≠ "DEBUG:".data := by
    intro hc
    have hlen := congrArg List.length hc
    have h6 : ("DEBUG:".data).length = 6 := rfl
    simp only [supper, pySlice, List.length_map, List.length_take,
      List.length_drop, h6] at hlen
    omega
  have h2 : supper (pySlice l.data 2 8) ≠ "ERROR:".data := by
    intro hc
    have hlen := congrArg List.length hc
    have h6 : ("ERROR:".data).length = 6 := rfl
    simp only [supper, pySlice, List.length_map, List.length_take,
      List.length_drop, h6] at hlen
    omega
  have h3 : supper (pySlice l.data 2 7) ≠ "DONE!".data := by
    intro hc
    have hlen := congrArg List.length hc
    have h5 : ("DONE!".data).length = 5 := rfl
    simp only [supper, pySlice, List.length_map, List.length_take,
      List.length_drop, h5] at hlen
    omega
  unfold classify
  rw [if_neg h1, if_neg h2, if_neg h3]

/-- Witness for C9 at the 6-character line xxDONE: too short for the DONE!
window, hence Unrecognized. -/
theorem classify_total_on_short_lines_witness :
    classify "xxDONE" = .Unrecognized :=
  classify_total_on_short_lines "xxDONE" (by decide)

/-- Claim C2: a completed session sends the messages strictly in input order,
one at a time: the trace contains exactly one write per message, the i-th
write payload being message i followed by a single newline, and the trace
decomposes into per-message blocks, each a write followed by that message's
reads whose last read is the first terminal classification. -/
theorem session_sends_in_order (ms stream : List String)
    (tr : List Event) (rest : List String)
    (h : runSession ms stream = some (tr, rest)) :
    tr.filterMap writeOf = ms.map (fun m => m ++ "\n") ∧
    ∃ chunks : List (List String),
      chunks.length = ms.length ∧
      tr = ((ms.zip chunks).map
        (fun p => Event.write (p.1 ++ "\n") :: p.2.map Event.read)).flatten ∧
      ∀ c ∈ chunks, ∃ pre last, c = pre ++ [last] ∧
        isTerminal (classify last) = true ∧
        ∀ l ∈ pre, isTerminal (classify l) = false := by
  induction ms generalizing stream tr rest with
  | nil =>
    simp only [runSession, Option.some.injEq, Prod.mk.injEq] at h
    obtain ⟨htr, hrest⟩ := h
    subst htr
    exact ⟨rfl, [], rfl, rfl, by simp⟩
  | cons m ms ih =>
    unfold runSession at h
    cases ha : awaitTerminal stream with
    | none => rw [ha] at h; simp at h
    | some p =>
      obtain ⟨c, r⟩ := p
      rw [ha] at h
      dsimp only at h
      cases hs : runSession ms r with
      | none => rw [hs] at h; simp at h
      | some q =>
        obtain ⟨tr1, r2⟩ := q
        rw [hs] at h
        dsimp only at h
        simp only [Option.some.injEq, Prod.mk.injEq] at h
        obtain ⟨htr, hrest⟩ := h
        obtain ⟨hw, chunks, hlen, hjoin, hchunks⟩ := ih r tr1 r2 hs
        obtain ⟨-, pre, last, hc, hterm, hpre⟩ := awaitTerminal_spec stream c r ha
        subst htr
        refine ⟨?_, c :: chunks, by simp [hlen], ?_, ?_⟩
        · simp [List.filterMap_cons, writeOf, List.filterMap_append,
            filterMap_writeOf_reads, hw]
        · simp [hjoin]
        · intro x hx
          rcases List.mem_cons.mp hx with hx | hx
          · subst hx; exact ⟨pre, last, hc, hterm, hpre⟩
          · exact hchunks x hx

/-- Witness for C2 on a two-message session: the trace write payloads are the
messages with newlines, in order, and the trace splits into the two blocks. -/
theorem session_sends_in_order_witness :
    ([Event.write "A-1\n", Event.read "xxDONE!", Event.write "B-2\n",
      Event.read "xxERROR: e"].filterMap writeOf =
        ["A-1", "B-2"].map (fun m => m ++ "\n")) ∧
    ∃ chunks : List (List String),
      chunks.length = (["A-1", "B-2"] : List String).length ∧
      [Event.write "A-1\n", Event.read "xxDONE!", Event.write "B-2\n",
        Event.read "xxERROR: e"] =
        (((["A-1", "B-2"] : List String).zip chunks).map
          (fun p => Event.write (p.1 ++ "\n") :: p.2.map Event.read)).flatten ∧
      ∀ c ∈ chunks, ∃ pre last, c = pre ++ [last] ∧
        isTerminal (classify last) = true ∧
        ∀ l ∈ pre, isTerminal (classify l) = false :=
  session_sends_in_order ["A-1", "B-2"] ["xxDONE!", "xxERROR: e"]
    [Event.write "A-1\n", Event.read "xxDONE!", Event.write "B-2\n",
      Event.read "xxERROR: e"] [] rfl

/-- Claim C3: an Error classification terminates only that message's
exchange, never the session: the session loop proceeds to the next message,
and on the two-message sequence with responses xxERROR: x then xxDONE! both
messages are processed and the session ends normally. -/
theorem error_terminates_message_not_session :
    (∀ (m : String) (ms : List String) (l : String) (stream : List String),
      classify l = .Error →
      runSession (m :: ms) (l :: stream) =
        (runSession ms stream).map
          (fun p => (Event.write (m ++ "\n") :: Event.read l :: p.1, p.2))) ∧
    runSession ["M1", "M2"] ["xxERROR: x", "xxDONE!"] =
      some ([Event.write "M1\n", Event.read "xxERROR: x",
             Event.write "M2\n", Event.read "xxDONE!"], []) := by
  constructor
  · intro m ms l stream h
    have ht : isTerminal (classify l) = true := by rw [h]; rfl
    cases hrs : runSession ms stream with
    | none => simp [runSession, awaitTerminal, ht, hrs]
    | some p =>
      obtain ⟨tr, r⟩ := p
      simp [runSession, awaitTerminal, ht, hrs]
  · rfl

/-- Witness for C3: after an Error line for the first message, the session
advances and leaves the remaining stream for the next message. -/
theorem error_terminates_message_not_session_witness :
    runSession ["A"] ["xxERROR: e", "zz"] =
      some ([Event.write "A\n", Event.read "xxERROR: e"], ["zz"]) := by
  have h := error_terminates_message_not_session.1 "A" [] "xxERROR: e" ["zz"]
    (by decide)
  simpa [runSession] using h

/-- Claim C4: handshake determinism: on a byte stream XYZQ followed by the
line BASICv1, the handshake reads single bytes up to and including the first
Q and nothing beyond, then writes exactly one X byte, then reads and returns
the line BASICv1; the trace shows no write before the sentinel Q is read. -/
theorem handshake_deterministic (extraBytes : List Char)
    (extraLines : List String) :
    handshake ('X' :: 'Y' :: 'Z' :: 'Q' :: extraBytes)
        ("BASICv1" :: extraLines) =
      some ([HSEvent.readByte 'X', HSEvent.readByte 'Y', HSEvent.readByte 'Z',
             HSEvent.readByte 'Q', HSEvent.writeByte 'X',
             HSEvent.readLine "BASICv1"],
            extraBytes, "BASICv1", extraLines) := rfl

/-- Counterexample to C7 as stated: an empty timeout read occurs inside a
completed exchange yet produces no printed transcript line at all, so a
ProtocolTimeout does not result in at least one printed line. -/
theorem timeout_prints_no_line_counterexample :
    ¬ (1 ≤ (printedFor "").length) ∧ classify "" = .Unrecognized ∧
    awaitTerminal ["", "xxDONE!"] = some (["", "xxDONE!"], []) :=
  ⟨by decide, by decide, rfl⟩

/-- Claim C7 amended: a DeviceReportedError (ERROR: line) and every Debug
line each produce a printed transcript line, while a ProtocolTimeout (an
empty or unrecognized read) produces no printed line and merely makes the
waiting loop retry the read. -/
theorem error_kinds_transcript_amended :
    (∀ l, classify l = .Error → printedFor l = ["Read: " ++ l]) ∧
    (∀ l, classify l = .Debug → printedFor l = ["Read: " ++ l]) ∧
    (∀ l, classify l = .Unrecognized → printedFor l = []) ∧
    (∀ l (stream : List String), classify l = .Unrecognized →
      awaitTerminal (l :: stream) =
        (awaitTerminal stream).map (fun p => (l :: p.1, p.2))) := by
  refine ⟨?_, ?_, ?_, ?_⟩
  · intro l h; simp [printedFor, h]
  · intro l h; simp [printedFor, h]
  · intro l h; simp [printedFor, h]
  · intro l stream h
    have ht : isTerminal (classify l) = false := by rw [h]; rfl
    cases hrs : awaitTerminal stream with
    | none => simp [awaitTerminal, ht, hrs]
    | some p =>
      obtain ⟨c, r⟩ := p
      simp [awaitTerminal, ht, hrs]

/-- Witness for the amended C7: an Error line is echoed to the transcript and
an empty timeout read prints nothing. -/
theorem error_kinds_transcript_amended_witness :
    printedFor "xxERROR: e" = ["Read: " ++ "xxERROR: e"] ∧
    printedFor "" = [] :=
  ⟨error_kinds_transcript_amended.1 "xxERROR: e" (by decide),
   error_kinds_transcript_amended.2.2.1 "" (by decide)⟩

/-- Claim C10: a Done-classified line terminates the wait for the current
message without printing any transcript line for it, whereas every Debug- and
Error-classified line is printed. -/
theorem done_line_prints_nothing :
    (∀ l (rest : List String), classify l = .Done →
      printedFor l = [] ∧ awaitTerminal (l :: rest) = some ([l], rest)) ∧
    (∀ l, classify l = .Debug ∨ classify l = .Error →
      printedFor l = ["Read: " ++ l]) := by
  constructor
  · intro l rest h
    have ht : isTerminal (classify l) = true := by rw [h]; rfl
    exact ⟨by simp [printedFor, h], by simp [awaitTerminal, ht]⟩
  · intro l h
    rcases h with h | h <;> simp [printedFor, h]

/-- Witness for C10 at xxDONE! and xxDEBUG: a. -/
theorem done_line_prints_nothing_witness :
    printedFor "xxDONE!" = [] ∧
    awaitTerminal ["xxDONE!"] = some (["xxDONE!"], []) ∧
    printedFor "xxDEBUG: a" = ["Read: " ++ "xxDEBUG: a"] :=
  ⟨(done_line_prints_nothing.1 "xxDONE!" [] (by decide)).1,
   (done_line_prints_nothing.1 "xxDONE!" [] (by decide)).2,
   done_line_prints_nothing.2 "xxDEBUG: a" (Or.inl (by decide))⟩
